import Mathlib

/-!
A verification development for the RetroVisionCabsConverter cabinet
template generators (src/Resources/create_cabinet_template.py,
create_cocktail_template.py, create_driving_template.py,
create_lightgun_template.py).

The Python scripts build Blender scenes; here the geometry kernel is
shallowly embedded: coordinates are exact rationals, a mesh is its
vertex list plus its face index lists (in bmesh insertion order), and a
completed scene is the list of surviving objects with their names and
parent links, in creation order.
-/

namespace RetroVisionCabs

/-- A 3D point or direction with rational coordinates (embedding of
mathutils.Vector and of bmesh vertex coordinates). -/
structure Vec3 where
  x : ℚ
  y : ℚ
  z : ℚ
deriving DecidableEq, Repr

/-- Componentwise difference of two vectors. -/
def vsub (a b : Vec3) : Vec3 := ⟨a.x - b.x, a.y - b.y, a.z - b.z⟩

/-- Dot product. -/
def dot (a b : Vec3) : ℚ := a.x * b.x + a.y * b.y + a.z * b.z

/-- Cross product. -/
def cross (a b : Vec3) : Vec3 :=
  ⟨a.y * b.z - a.z * b.y, a.z * b.x - a.x * b.z, a.x * b.y - a.y * b.x⟩

/-- Squared Euclidean norm.  The Python scripts compare the (real)
norm against thresholds; all such comparisons are embedded through the
equivalent comparison of squares, which keeps everything rational. -/
def norm2 (a : Vec3) : ℚ := a.x ^ 2 + a.y ^ 2 + a.z ^ 2

/-- Squared distance between two points. -/
def dist2 (a b : Vec3) : ℚ := norm2 (vsub a b)

/-- A mesh: vertices in bmesh insertion order (insertion order equals
index), plus faces as ordered lists of vertex indices. -/
structure Mesh where
  verts : List Vec3
  faces : List (List Nat)
deriving DecidableEq, Repr

/-- The front (or back) vertex ring of a profile extrusion: each 2D
profile point (x, z) becomes the 3D vertex (x, y0, z).  Embeds the
list comprehensions building front_verts and back_verts in
create_side_panel (create_cabinet_template.py lines 84-94) and its
driving and lightgun counterparts. -/
def profile_ring (pts : List (ℚ × ℚ)) (y0 : ℚ) : List Vec3 :=
  pts.map (fun p => ⟨p.1, y0, p.2⟩)

/-- The n side quads of a profile extrusion.  Quad i is
[front i, front j, back j, back i] with j = (i+1) % n, matching
bm.faces.new([front_verts[i], front_verts[j], back_verts[j],
back_verts[i]]) in all three side-panel builders. -/
def side_quads (n : Nat) : List (List Nat) :=
  (List.range n).map (fun i => [i, (i + 1) % n, n + (i + 1) % n, n + i])

/-- Profile extrusion shared by create_side_panel,
create_side_panel_driving and create_side_panel_lightgun: front ring
at y = yf, back ring at y = yb, faces are the front n-gon in listed
order, the back n-gon with reversed vertex order, then the n side
quads. -/
def extrude_slab (pts : List (ℚ × ℚ)) (yf yb : ℚ) : Mesh :=
  let n := pts.length
  { verts := profile_ring pts yf ++ profile_ring pts yb
    faces := List.range n :: ((List.range n).map (· + n)).reverse :: side_quads n }

/-- The 15-point upright side profile (create_cabinet_template.py
lines 56-72). -/
def profile_2d_upright : List (ℚ × ℚ) :=
  [(0, 0), (0, 0.15), (-0.05, 0.20), (-0.05, 0.70), (-0.15, 0.85),
   (-0.15, 1.10), (-0.10, 1.20), (-0.05, 1.50), (-0.08, 1.65),
   (-0.10, 1.75), (-0.10, 1.90), (-0.05, 1.95), (-0.35, 1.95),
   (-0.40, 1.85), (-0.40, 0)]

/-- The mirror step of create_side_panel (lines 74-76): the list
comprehension [(x, y) for x, y in profile_2d] rebuilds the same pairs,
so it is the identity on the profile. -/
def mirror_for_right (pts : List (ℚ × ℚ)) : List (ℚ × ℚ) :=
  pts.map (fun p => (p.1, p.2))

/-- Mesh part of create_side_panel (create_cabinet_template.py lines
78-109): front ring at +t/2 for the right panel and -t/2 for the left,
back ring at the opposite offset. -/
def side_panel_mesh (pts : List (ℚ × ℚ)) (t : ℚ) (is_right : Bool) : Mesh :=
  extrude_slab pts (if is_right then t / 2 else -t / 2)
    (if is_right then -t / 2 else t / 2)

/-- create_side_panel (create_cabinet_template.py lines 50-118):
returns the mesh and the y component of the object location
(0.25 for the right panel, -0.25 for the left). -/
def create_side_panel (is_right : Bool) : Mesh × ℚ :=
  ((side_panel_mesh
      (if is_right then mirror_for_right profile_2d_upright else profile_2d_upright)
      0.02 is_right),
   if is_right then 0.25 else -0.25)

/-- The 13-point driving side profile (create_driving_template.py
lines 42-56). -/
def profile_2d_driving : List (ℚ × ℚ) :=
  [(0, 0), (0, 0.40), (-0.20, 0.50), (-0.30, 0.80), (-0.35, 1.10),
   (-0.30, 1.50), (-0.25, 1.70), (-0.20, 1.85), (-0.15, 1.95),
   (-0.80, 1.95), (-0.85, 1.80), (-0.85, 0.35), (-0.80, 0)]

/-- create_side_panel_driving (create_driving_template.py lines
39-87): the front ring sits at y_offset = plus or minus 0.50 and the
back ring at y_offset minus (right) or plus (left) thickness. -/
def create_side_panel_driving (is_right : Bool) : Mesh :=
  let t : ℚ := 0.02
  let yo : ℚ := if is_right then 0.50 else -0.50
  extrude_slab profile_2d_driving yo (if is_right then yo - t else yo + t)

/-- The 13-point lightgun side profile (create_lightgun_template.py
lines 39-53). -/
def profile_2d_lightgun : List (ℚ × ℚ) :=
  [(0, 0), (0, 0.20), (-0.10, 0.30), (-0.10, 0.90), (-0.15, 1.00),
   (-0.12, 1.50), (-0.08, 1.80), (-0.05, 1.95), (-0.05, 2.10),
   (0, 2.15), (-0.50, 2.15), (-0.55, 2.00), (-0.55, 0)]

/-- create_side_panel_lightgun (create_lightgun_template.py lines
36-85): same offset scheme as the upright panel, object location y is
0.40 for the right panel and -0.40 for the left. -/
def create_side_panel_lightgun (is_right : Bool) : Mesh × ℚ :=
  (side_panel_mesh profile_2d_lightgun 0.02 is_right,
   if is_right then 0.40 else -0.40)

/-- create_bezel_with_cutout as in create_driving_template.py lines
233-295 and create_lightgun_template.py lines 87-143 (outer and cutout
rectangles in the x-z plane, thickness along y).  Vertices v1..v8 are
the front outer and cutout corners, v1b..v8b the back copies; the 16
faces are 4 front ring quads, 4 back ring quads, 4 outer side walls
and 4 cutout bore walls, with the index patterns of the source. -/
def create_bezel_with_cutout (outer_w outer_h cutout_w cutout_h thickness : ℚ) : Mesh :=
  let hw := outer_w / 2
  let hh := outer_h / 2
  let chw := cutout_w / 2
  let chh := cutout_h / 2
  let t := thickness / 2
  { verts :=
      [⟨-hw, -t, -hh⟩, ⟨hw, -t, -hh⟩, ⟨hw, -t, hh⟩, ⟨-hw, -t, hh⟩,
       ⟨-chw, -t, -chh⟩, ⟨chw, -t, -chh⟩, ⟨chw, -t, chh⟩, ⟨-chw, -t, chh⟩,
       ⟨-hw, t, -hh⟩, ⟨hw, t, -hh⟩, ⟨hw, t, hh⟩, ⟨-hw, t, hh⟩,
       ⟨-chw, t, -chh⟩, ⟨chw, t, -chh⟩, ⟨chw, t, chh⟩, ⟨-chw, t, chh⟩]
    faces :=
      [[0, 1, 5, 4], [1, 2, 6, 5], [2, 3, 7, 6], [3, 0, 4, 7],
       [12, 13, 9, 8], [13, 14, 10, 9], [14, 15, 11, 10], [15, 12, 8, 11],
       [0, 8, 9, 1], [1, 9, 10, 2], [2, 10, 11, 3], [3, 11, 8, 0],
       [4, 5, 13, 12], [5, 6, 14, 13], [6, 7, 15, 14], [7, 4, 12, 15]] }

/-- create_bezel_with_cutout as in create_cocktail_template.py lines
36-100: same topology, but the panel lies in the x-y plane with the
thickness along z (top corners at +t, bottom copies at -t). -/
def create_bezel_with_cutout_cocktail (outer_w outer_h cutout_w cutout_h thickness : ℚ) : Mesh :=
  let hw := outer_w / 2
  let hh := outer_h / 2
  let chw := cutout_w / 2
  let chh := cutout_h / 2
  let t := thickness / 2
  { verts :=
      [⟨-hw, -hh, t⟩, ⟨hw, -hh, t⟩, ⟨hw, hh, t⟩, ⟨-hw, hh, t⟩,
       ⟨-chw, -chh, t⟩, ⟨chw, -chh, t⟩, ⟨chw, chh, t⟩, ⟨-chw, chh, t⟩,
       ⟨-hw, -hh, -t⟩, ⟨hw, -hh, -t⟩, ⟨hw, hh, -t⟩, ⟨-hw, hh, -t⟩,
       ⟨-chw, -chh, -t⟩, ⟨chw, -chh, -t⟩, ⟨chw, chh, -t⟩, ⟨-chw, chh, -t⟩]
    faces :=
      [[0, 1, 5, 4], [1, 2, 6, 5], [2, 3, 7, 6], [3, 0, 4, 7],
       [12, 13, 9, 8], [13, 14, 10, 9], [14, 15, 11, 10], [15, 12, 8, 11],
       [0, 8, 9, 1], [1, 9, 10, 2], [2, 10, 11, 3], [3, 11, 8, 0],
       [4, 5, 13, 12], [5, 6, 14, 13], [6, 7, 15, 14], [7, 4, 12, 15]] }

/-- The upright bezel, create_bezel_with_cutout in
create_cabinet_template.py lines 206-284: same construction with the
fixed dimensions 0.45 x 0.40 outer, 0.35 x 0.28 cutout, thickness
0.01. -/
def create_bezel_with_cutout_upright : Mesh :=
  create_bezel_with_cutout 0.45 0.40 0.35 0.28 0.01

/-- Whether a sweep segment between two waypoints is built.  All
tube-segment and strip builders skip a segment when the direction
length is below 0.001 (create_cocktail_template.py line 127,
create_driving_template.py line 314, create_lightgun_template.py line
206, add_strip in create_cabinet_template.py line 146); for
nonnegative lengths, length < 0.001 is equivalent to squared length
< 1/1000000. -/
def seg_kept (p q : Vec3) : Prop := ¬ dist2 p q < 1 / 1000000

instance (p q : Vec3) : Decidable (seg_kept p q) :=
  inferInstanceAs (Decidable (¬ dist2 p q < 1 / 1000000))

/-- Number of segments built from a waypoint path: one per consecutive
pair whose direction passes the epsilon test (the loops at
create_cocktail_template.py lines 151-155). -/
def seg_count : List Vec3 → Nat
  | [] => 0
  | [_] => 0
  | p :: q :: rest => (if seg_kept p q then 1 else 0) + seg_count (q :: rest)

/-- Number of consecutive pairs skipped by the epsilon test. -/
def skip_count : List Vec3 → Nat
  | [] => 0
  | [_] => 0
  | p :: q :: rest => (if seg_kept p q then 0 else 1) + skip_count (q :: rest)

/-- The world up direction used by create_tube_segment. -/
def world_up : Vec3 := ⟨0, 0, 1⟩

/-- The near-parallel test of create_tube_segment
(create_cocktail_template.py line 139): abs of the dot product of the
normalized direction with (0,0,1) exceeds 0.999.  For a nonzero
direction d this is equivalent to the rational comparison
998001 * norm2 d < 1000000 * (dot d world_up)^2, since
0.999^2 = 998001/1000000. -/
def nearly_parallel_up (d : Vec3) : Prop :=
  998001 * norm2 d < 1000000 * (dot d world_up) ^ 2

instance (d : Vec3) : Decidable (nearly_parallel_up d) :=
  inferInstanceAs (Decidable (998001 * norm2 d < 1000000 * (dot d world_up) ^ 2))

/-- The reference axis chosen by create_tube_segment: the world up
direction, unless the segment direction is nearly parallel to it, in
which case fall back to (1,0,0) (create_cocktail_template.py lines
138-140). -/
def choose_up (d : Vec3) : Vec3 :=
  if nearly_parallel_up d then ⟨1, 0, 0⟩ else world_up

/-- T-molding waypoint path of create_t_molding_cocktail
(create_cocktail_template.py lines 116-122), with hw = 0.35,
hd = 0.275, table_h = 0.70. -/
def cocktail_molding_path : List Vec3 :=
  [⟨0.35, -0.275, 0.70⟩, ⟨0.35, 0.275, 0.70⟩, ⟨-0.35, 0.275, 0.70⟩,
   ⟨-0.35, -0.275, 0.70⟩, ⟨0.35, -0.275, 0.70⟩]

/-- T-molding waypoint path of create_t_molding_driving
(create_driving_template.py lines 302-309). -/
def driving_molding_path : List Vec3 :=
  [⟨-0.20, -0.50, 0.50⟩, ⟨-0.20, -0.50, 1.70⟩, ⟨-0.15, -0.50, 1.95⟩,
   ⟨-0.15, 0.50, 1.95⟩, ⟨-0.20, 0.50, 1.70⟩, ⟨-0.20, 0.50, 0.50⟩]

/-- First T-molding waypoint path of create_t_molding_lightgun
(create_lightgun_template.py lines 184-192). -/
def lightgun_molding_path : List Vec3 :=
  [⟨-0.10, -0.40, 0.30⟩, ⟨-0.10, 0.40, 0.30⟩, ⟨-0.10, 0.40, 0.90⟩,
   ⟨-0.15, 0.40, 1.00⟩, ⟨-0.15, -0.40, 1.00⟩, ⟨-0.10, -0.40, 0.90⟩,
   ⟨-0.10, -0.40, 0.30⟩]

/-- Second T-molding waypoint path of create_t_molding_lightgun
(create_lightgun_template.py lines 195-201). -/
def lightgun_molding_path2 : List Vec3 :=
  [⟨-0.05, -0.40, 1.95⟩, ⟨-0.05, 0.40, 1.95⟩, ⟨-0.05, 0.40, 2.10⟩,
   ⟨-0.05, -0.40, 2.10⟩, ⟨-0.05, -0.40, 1.95⟩]

/-- A scene object as the variant drivers leave it: a name and an
optional parent name (the root empty has no parent, every part is
assigned parent = root after creation). -/
structure SceneNode where
  name : String
  parent : Option String
deriving DecidableEq, Repr

/-- A part node parented to the root empty. -/
def part (nm : String) : SceneNode := ⟨nm, some "cabinet-root"⟩

/-- The completed upright scene, create_cabinet
(create_cabinet_template.py lines 296-460), objects in creation
order.  The t-molding object is created unconditionally there (the
mesh object exists even if every strip were skipped). -/
def create_cabinet : List SceneNode :=
  ⟨"cabinet-root", none⟩ ::
    (["left", "right", "back", "top", "bottom", "front-kick",
      "marquee-box", "marquee", "bezel", "screen", "cp-shell",
      "joystick", "coin-door", "speaker", "t-molding",
      "screen-mock-vertical", "screen-mock-horizontal"].map part)

/-- The completed cocktail scene, create_cocktail_cabinet
(create_cocktail_template.py lines 170-313).  The t-molding object
exists only when at least one tube segment was built. -/
def create_cocktail_cabinet : List SceneNode :=
  ⟨"cabinet-root", none⟩ ::
    (["bezel", "screen", "screen-mock-horizontal", "screen-mock-vertical",
      "left", "right", "back", "front", "top", "bottom", "joystick",
      "joystick-2", "marquee", "coin-door", "leg-1", "leg-2", "leg-3",
      "leg-4"].map part)
    ++ (if 0 < seg_count cocktail_molding_path then [part "t-molding"] else [])
    ++ [part "speaker"]

/-- The completed driving scene, create_driving_cabinet
(create_driving_template.py lines 357-494). -/
def create_driving_cabinet : List SceneNode :=
  ⟨"cabinet-root", none⟩ ::
    (["left", "right", "back", "top", "bottom", "dashboard", "marquee",
      "marquee-box", "bezel", "screen", "screen-mock-horizontal",
      "screen-mock-vertical", "steering-wheel", "steering-column",
      "gas-pedal", "brake-pedal", "gear-shifter", "seat", "coin-door",
      "speaker", "front-kick"].map part)
    ++ (if 0 < seg_count driving_molding_path then [part "t-molding"] else [])

/-- The completed lightgun scene, create_lightgun_cabinet
(create_lightgun_template.py lines 254-378).  Its t-molding object
exists when either waypoint path yields at least one segment. -/
def create_lightgun_cabinet : List SceneNode :=
  ⟨"cabinet-root", none⟩ ::
    (["left", "right", "back", "top", "bottom", "front", "front-lower",
      "marquee", "marquee-box", "bezel", "screen",
      "screen-mock-horizontal", "screen-mock-vertical", "gun", "gun2",
      "gun-shelf", "coin-door", "speaker", "pedal"].map part)
    ++ (if 0 < seg_count lightgun_molding_path + seg_count lightgun_molding_path2
        then [part "t-molding"] else [])

/-- The names present in a completed scene. -/
def scene_names (s : List SceneNode) : List String := s.map (·.name)

/-- Parent lookup by name in a scene. -/
def parent_of (s : List SceneNode) (nm : String) : Option String :=
  match s.find? (fun nd => nd.name == nm) with
  | some nd => nd.parent
  | none => none

/-- Whether, within the given fuel, the parent chain starting at a
name reaches the root name cabinet-root. -/
def reaches_root (s : List SceneNode) : Nat → String → Bool
  | 0, nm => nm == "cabinet-root"
  | fuel + 1, nm =>
    nm == "cabinet-root" ||
      (match parent_of s nm with
       | some p => reaches_root s fuel p
       | none => false)

/-- The single-root invariant of a completed scene: exactly one node
named cabinet-root, that name carries no parent, and every node
reaches the root along parent links. -/
def single_rooted (s : List SceneNode) : Prop :=
  (s.filter (fun nd => nd.name == "cabinet-root")).length = 1 ∧
  (∀ nd ∈ s, nd.name = "cabinet-root" → nd.parent = none) ∧
  (∀ nd ∈ s, reaches_root s s.length nd.name = true)

instance (s : List SceneNode) : Decidable (single_rooted s) := by
  unfold single_rooted
  infer_instance

/-- The minimum part-name vocabulary required of every variant. -/
def required_names : List String :=
  ["left", "right", "back", "top", "bottom", "bezel", "screen",
   "screen-mock-horizontal", "screen-mock-vertical", "marquee",
   "coin-door", "speaker", "t-molding"]

/-- Componentwise sum of two vectors (used for face centers). -/
def vadd (a b : Vec3) : Vec3 := ⟨a.x + b.x, a.y + b.y, a.z + b.z⟩

/-- Scalar multiple of a vector. -/
def smul (c : ℚ) (a : Vec3) : Vec3 := ⟨c * a.x, c * a.y, c * a.z⟩

/-- Vertex of a mesh by index. -/
def vert (m : Mesh) (k : Nat) : Vec3 := m.verts.getD k ⟨0, 0, 0⟩

/-- Right-hand-rule normal of a face as determined by its winding
order: the cross product of its first two edges. -/
def face_normal (m : Mesh) (f : List Nat) : Vec3 :=
  match f with
  | a :: b :: c :: _ =>
    cross (vsub (vert m b) (vert m a)) (vsub (vert m c) (vert m a))
  | _ => ⟨0, 0, 0⟩

/-- Center (vertex average) of a quad face. -/
def quad_center (m : Mesh) (f : List Nat) : Vec3 :=
  match f with
  | [a, b, c, d] =>
    smul (1 / 4) (vadd (vadd (vert m a) (vert m b)) (vadd (vert m c) (vert m d)))
  | _ => ⟨0, 0, 0⟩

/-- Centroid of a 2D profile, lifted to the mid-plane y = 0 of a
side-panel slab (the two rings sit at +t/2 and -t/2, so the slab is
centered on y = 0). -/
def profile_centroid (pts : List (ℚ × ℚ)) : Vec3 :=
  ⟨(pts.map Prod.fst).sum / pts.length, 0, (pts.map Prod.snd).sum / pts.length⟩

/-- The i-th side quad of a side panel mesh (faces 0 and 1 are the
front and back n-gons, the side quads follow). -/
def side_quad (pts : List (ℚ × ℚ)) (t : ℚ) (flag : Bool) (i : Nat) : List Nat :=
  (side_panel_mesh pts t flag).faces.getD (2 + i) []

/-- Right-hand-rule normal of the i-th side quad of a side panel. -/
def side_quad_normal (pts : List (ℚ × ℚ)) (t : ℚ) (flag : Bool) (i : Nat) : Vec3 :=
  face_normal (side_panel_mesh pts t flag) (side_quad pts t flag i)

/-- Center of the i-th side quad of a side panel. -/
def side_quad_center (pts : List (ℚ × ℚ)) (t : ℚ) (flag : Bool) (i : Nat) : Vec3 :=
  quad_center (side_panel_mesh pts t flag) (side_quad pts t flag i)

lemma seg_count_cocktail : seg_count cocktail_molding_path = 4 := by
  norm_num [seg_count, seg_kept, dist2, norm2, vsub, cocktail_molding_path]

lemma seg_count_driving : seg_count driving_molding_path = 5 := by
  norm_num [seg_count, seg_kept, dist2, norm2, vsub, driving_molding_path]

lemma seg_count_lightgun : seg_count lightgun_molding_path = 6 := by
  norm_num [seg_count, seg_kept, dist2, norm2, vsub, lightgun_molding_path]

lemma seg_count_lightgun2 : seg_count lightgun_molding_path2 = 4 := by
  norm_num [seg_count, seg_kept, dist2, norm2, vsub, lightgun_molding_path2]

/-- In the cocktail build all four molding segments pass the epsilon
test, so the t-molding node is present. -/
lemma cocktail_scene_eq :
    create_cocktail_cabinet =
      ⟨"cabinet-root", none⟩ ::
        (["bezel", "screen", "screen-mock-horizontal", "screen-mock-vertical",
          "left", "right", "back", "front", "top", "bottom", "joystick",
          "joystick-2", "marquee", "coin-door", "leg-1", "leg-2", "leg-3",
          "leg-4"].map part) ++ [part "t-molding"] ++ [part "speaker"] := by
  simp [create_cocktail_cabinet, seg_count_cocktail]

/-- In the driving build all five molding segments pass the epsilon
test, so the t-molding node is present. -/
lemma driving_scene_eq :
    create_driving_cabinet =
      ⟨"cabinet-root", none⟩ ::
        (["left", "right", "back", "top", "bottom", "dashboard", "marquee",
          "marquee-box", "bezel", "screen", "screen-mock-horizontal",
          "screen-mock-vertical", "steering-wheel", "steering-column",
          "gas-pedal", "brake-pedal", "gear-shifter", "seat", "coin-door",
          "speaker", "front-kick"].map part) ++ [part "t-molding"] := by
  simp [create_driving_cabinet, seg_count_driving]

/-- In the lightgun build both molding paths yield segments, so the
t-molding node is present. -/
lemma lightgun_scene_eq :
    create_lightgun_cabinet =
      ⟨"cabinet-root", none⟩ ::
        (["left", "right", "back", "top", "bottom", "front", "front-lower",
          "marquee", "marquee-box", "bezel", "screen",
          "screen-mock-horizontal", "screen-mock-vertical", "gun", "gun2",
          "gun-shelf", "coin-door", "speaker", "pedal"].map part)
        ++ [part "t-molding"] := by
  simp [create_lightgun_cabinet, seg_count_lightgun, seg_count_lightgun2]

/-- C1: for every completed cabinet variant build (Upright, Cocktail,
Driving, LightGun), the produced scene contains exactly one node named
cabinet-root that has no parent, and every other node created by the
build has a parent chain terminating at that root. -/
theorem C1_single_root_invariant :
    single_rooted create_cabinet ∧ single_rooted create_cocktail_cabinet ∧
    single_rooted create_driving_cabinet ∧ single_rooted create_lightgun_cabinet := by
  refine ⟨by decide, ?_, ?_, ?_⟩
  · rw [cocktail_scene_eq]; decide
  · rw [driving_scene_eq]; decide
  · rw [lightgun_scene_eq]; decide

/-- C2: every cabinet variant scene contains a node for each name in
the minimum required vocabulary: left, right, back, top, bottom,
bezel, screen, screen-mock-horizontal, screen-mock-vertical, marquee,
coin-door, speaker, and t-molding. -/
theorem C2_required_vocabulary :
    ∀ nm ∈ required_names,
      nm ∈ scene_names create_cabinet ∧
      nm ∈ scene_names create_cocktail_cabinet ∧
      nm ∈ scene_names create_driving_cabinet ∧
      nm ∈ scene_names create_lightgun_cabinet := by
  rw [cocktail_scene_eq, driving_scene_eq, lightgun_scene_eq]
  decide

/-- C2 witness: the vocabulary contract instantiated at the name
t-molding. -/
theorem C2_required_vocabulary_witness :
    "t-molding" ∈ scene_names create_cabinet ∧
    "t-molding" ∈ scene_names create_cocktail_cabinet ∧
    "t-molding" ∈ scene_names create_driving_cabinet ∧
    "t-molding" ∈ scene_names create_lightgun_cabinet :=
  C2_required_vocabulary "t-molding" (by decide)

/-- C9 counterexample: the completed lightgun scene does contain a
node named pedal (create_lightgun_template.py line 368), so the claim
that the LightGun variant yields no pedal node is false. -/
theorem C9_counterexample : "pedal" ∈ scene_names create_lightgun_cabinet := by
  rw [lightgun_scene_eq]; decide

/-- C9 amended: building the LightGun variant yields nodes named gun,
gun2, gun-shelf and pedal, and yields no steering node (no
steering-wheel and no steering-column). -/
theorem C9_lightgun_parts :
    "gun" ∈ scene_names create_lightgun_cabinet ∧
    "gun2" ∈ scene_names create_lightgun_cabinet ∧
    "gun-shelf" ∈ scene_names create_lightgun_cabinet ∧
    "pedal" ∈ scene_names create_lightgun_cabinet ∧
    "steering-wheel" ∉ scene_names create_lightgun_cabinet ∧
    "steering-column" ∉ scene_names create_lightgun_cabinet := by
  rw [lightgun_scene_eq]; decide

/-- C3: for every profile extrusion with a closed profile of n points
(n at least 3) and thickness t above 0, the resulting mesh has exactly
2n vertices and n+2 faces: one front n-gon (face 0), one back n-gon
(face 1), and n side quads. -/
theorem C3_extrusion_counts (pts : List (ℚ × ℚ)) (t : ℚ) (flag : Bool)
    (h3 : 3 ≤ pts.length) (ht : 0 < t) :
    (side_panel_mesh pts t flag).verts.length = 2 * pts.length ∧
    (side_panel_mesh pts t flag).faces.length = pts.length + 2 ∧
    ((side_panel_mesh pts t flag).faces.getD 0 []).length = pts.length ∧
    ((side_panel_mesh pts t flag).faces.getD 1 []).length = pts.length ∧
    (∀ f ∈ (side_panel_mesh pts t flag).faces.drop 2, f.length = 4) := by
  refine ⟨?_, ?_, ?_, ?_, ?_⟩ <;>
    simp [side_panel_mesh, extrude_slab, profile_ring, side_quads] <;>
    first
      | ring
      | (intro f i _ hf; subst hf; rfl)

/-- C3 witness: the upright left side panel call (15 profile points,
thickness 0.02) yields 30 vertices and 17 faces. -/
theorem C3_extrusion_counts_witness :
    (side_panel_mesh profile_2d_upright 0.02 false).verts.length = 30 ∧
    (side_panel_mesh profile_2d_upright 0.02 false).faces.length = 17 := by
  have h := C3_extrusion_counts profile_2d_upright 0.02 false (by decide) (by norm_num)
  exact ⟨h.1.trans (by decide), h.2.1.trans (by decide)⟩

/-- C5: every cutout-panel builder call with outer dimensions strictly
above the cutout dimensions on both axes yields a mesh of exactly 16
vertices and 16 faces, all of them quads (4 front ring, 4 back ring, 4
outer wall, 4 cutout bore), in both the x-z-plane builder (driving,
lightgun, upright) and the x-y-plane builder (cocktail). -/
theorem C5_cutout_counts (w h cw ch t : ℚ) (hcw : cw < w) (hch : ch < h) :
    (create_bezel_with_cutout w h cw ch t).verts.length = 16 ∧
    (create_bezel_with_cutout w h cw ch t).faces.length = 16 ∧
    (∀ f ∈ (create_bezel_with_cutout w h cw ch t).faces, f.length = 4) ∧
    (create_bezel_with_cutout_cocktail w h cw ch t).verts.length = 16 ∧
    (create_bezel_with_cutout_cocktail w h cw ch t).faces.length = 16 ∧
    (∀ f ∈ (create_bezel_with_cutout_cocktail w h cw ch t).faces, f.length = 4) := by
  refine ⟨rfl, rfl, ?_, rfl, rfl, ?_⟩ <;>
    · intro f hf
      simp [create_bezel_with_cutout, create_bezel_with_cutout_cocktail] at hf
      rcases hf with h | h | h | h | h | h | h | h | h | h | h | h | h | h | h | h <;>
        subst h <;> rfl

/-- C5 witness: the upright bezel (outer 0.45 x 0.40, cutout 0.35 x
0.28) has 16 vertices and 16 faces. -/
theorem C5_cutout_counts_witness :
    create_bezel_with_cutout_upright.verts.length = 16 ∧
    create_bezel_with_cutout_upright.faces.length = 16 :=
  ⟨(C5_cutout_counts 0.45 0.40 0.35 0.28 0.01 (by norm_num) (by norm_num)).1,
   (C5_cutout_counts 0.45 0.40 0.35 0.28 0.01 (by norm_num) (by norm_num)).2.1⟩

/-- C6 counterexample: called with a cutout width equal to the outer
width (not strictly smaller), the cutout-panel builder does not fail:
it still returns the full 16-vertex, 16-face mesh, because neither
create_bezel_with_cutout variant contains any validation of its
dimensions. -/
theorem C6_counterexample :
    ¬ ((0.45 : ℚ) < 0.45) ∧
    (create_bezel_with_cutout 0.45 0.40 0.45 0.28 0.01).verts.length = 16 ∧
    (create_bezel_with_cutout 0.45 0.40 0.45 0.28 0.01).faces.length = 16 ∧
    (create_bezel_with_cutout_cocktail 0.70 0.55 0.70 0.55 0.01).verts.length = 16 ∧
    (create_bezel_with_cutout_cocktail 0.70 0.55 0.70 0.55 0.01).faces.length = 16 :=
  ⟨by norm_num, rfl, rfl, rfl, rfl⟩

/-- C6 amended: the cutout-panel builders perform no degeneracy check
at all; for every input, including cutout dimensions equal to or
larger than the outer ones, they return a 16-vertex, 16-face mesh
rather than failing. -/
theorem C6_no_degenerate_cutout_check (w h cw ch t : ℚ) :
    (create_bezel_with_cutout w h cw ch t).verts.length = 16 ∧
    (create_bezel_with_cutout w h cw ch t).faces.length = 16 ∧
    (create_bezel_with_cutout_cocktail w h cw ch t).verts.length = 16 ∧
    (create_bezel_with_cutout_cocktail w h cw ch t).faces.length = 16 :=
  ⟨rfl, rfl, rfl, rfl⟩

/-- Built and skipped segments partition the consecutive waypoint
pairs of a path. -/
lemma seg_count_add_skip_count (l : List Vec3) :
    seg_count l + skip_count l = l.length - 1 := by
  induction l with
  | nil => simp [seg_count, skip_count]
  | cons p tail ih =>
    cases tail with
    | nil => simp [seg_count, skip_count]
    | cons q rest =>
      by_cases hk : seg_kept p q <;>
        · simp only [seg_count, skip_count, if_pos, if_neg, hk, ite_true, ite_false,
            List.length_cons] at ih ⊢
          omega

/-- C7: a sweep path whose consecutive pairs all pass the epsilon test
(no skipped pair) yields exactly k-1 built segments for k waypoints;
a path with exactly one skipped (duplicate) consecutive pair yields
exactly k-2 built segments, and building never fails. -/
theorem C7_segment_counts (path : List Vec3) :
    (skip_count path = 0 → seg_count path = path.length - 1) ∧
    (skip_count path = 1 → seg_count path = path.length - 2) := by
  have h := seg_count_add_skip_count path
  constructor <;> intro h0 <;> omega

/-- C7 witness: the cocktail molding path (5 waypoints, no skipped
pair) yields 4 segments; the same path with its first waypoint
repeated (6 waypoints, one duplicate pair) yields 4 segments. -/
theorem C7_segment_counts_witness :
    seg_count cocktail_molding_path = 4 ∧
    seg_count (⟨0.35, -0.275, 0.70⟩ :: cocktail_molding_path) = 4 := by
  have h0 : skip_count cocktail_molding_path = 0 := by
    norm_num [skip_count, seg_kept, dist2, norm2, vsub, cocktail_molding_path]
  have h1 : skip_count (⟨0.35, -0.275, 0.70⟩ :: cocktail_molding_path) = 1 := by
    norm_num [skip_count, seg_kept, dist2, norm2, vsub, cocktail_molding_path]
  constructor
  · have h := (C7_segment_counts cocktail_molding_path).1 h0
    simpa [cocktail_molding_path] using h
  · have h := (C7_segment_counts (⟨0.35, -0.275, 0.70⟩ :: cocktail_molding_path)).2 h1
    simpa [cocktail_molding_path] using h

/-- C8: for every nonzero segment direction, create_tube_segment
derives its frame from the world up axis unless the direction is
nearly parallel to it (abs of the normalized dot above 0.999), in
which case it falls back to the secondary axis (1,0,0); the chosen
reference is never parallel to the direction, so its cross product
with the direction is nonzero and a perpendicular basis exists. -/
theorem C8_stable_frame (d : Vec3) (hd : d ≠ ⟨0, 0, 0⟩) :
    (¬ nearly_parallel_up d → choose_up d = world_up) ∧
    (nearly_parallel_up d → choose_up d = ⟨1, 0, 0⟩) ∧
    cross (choose_up d) d ≠ ⟨0, 0, 0⟩ := by
  obtain ⟨dx, dy, dz⟩ := d
  refine ⟨fun hp => by rw [choose_up, if_neg hp],
          fun hp => by rw [choose_up, if_pos hp], ?_⟩
  rw [choose_up]
  by_cases hp : nearly_parallel_up ⟨dx, dy, dz⟩
  · rw [if_pos hp]
    simp only [nearly_parallel_up, norm2, dot, world_up] at hp
    simp only [cross]
    intro h0
    rw [Vec3.mk.injEq] at h0
    obtain ⟨h1, h2, h3⟩ := h0
    have hz : dz = 0 := by linarith
    have hy : dy = 0 := by linarith
    rw [hy, hz] at hp
    nlinarith [sq_nonneg dx]
  · rw [if_neg hp]
    simp only [nearly_parallel_up, norm2, dot, world_up, not_lt] at hp
    simp only [cross, world_up]
    intro h0
    rw [Vec3.mk.injEq] at h0
    obtain ⟨h1, h2, h3⟩ := h0
    have hy : dy = 0 := by linarith
    have hx : dx = 0 := by linarith
    have hz : dz ≠ 0 := by
      intro hz
      exact hd (by rw [hx, hy, hz])
    rw [hx, hy] at hp
    nlinarith [sq_nonneg dz, pow_pos (abs_pos.mpr hz) 2, sq_abs dz]

/-- C8 witness: the frame selection at the concrete horizontal
direction (1,0,0). -/
theorem C8_stable_frame_witness :
    (¬ nearly_parallel_up ⟨1, 0, 0⟩ → choose_up ⟨1, 0, 0⟩ = world_up) ∧
    (nearly_parallel_up ⟨1, 0, 0⟩ → choose_up ⟨1, 0, 0⟩ = ⟨1, 0, 0⟩) ∧
    cross (choose_up ⟨1, 0, 0⟩) ⟨1, 0, 0⟩ ≠ ⟨0, 0, 0⟩ :=
  C8_stable_frame ⟨1, 0, 0⟩ (by simp [Vec3.mk.injEq])

/-- The mirror step of create_side_panel rebuilds the same pairs, so
it is the identity. -/
lemma mirror_for_right_id (pts : List (ℚ × ℚ)) : mirror_for_right pts = pts := by
  simp [mirror_for_right]

/-- C10: the is_right flag of the upright side-panel builder does not
mirror the 2D profile: both rings are built from the same 15 profile
coordinates, the flag only swaps which ring receives the +t/2 versus
-t/2 y offset and flips the sign of the node y location (0.25 versus
-0.25), so left and right panel meshes have the same vertex multiset
(and identical face lists). -/
theorem C10_side_flag_no_mirror :
    profile_2d_upright.length = 15 ∧
    mirror_for_right profile_2d_upright = profile_2d_upright ∧
    (create_side_panel false).2 = -0.25 ∧
    (create_side_panel true).2 = 0.25 ∧
    (create_side_panel false).1.verts =
      profile_ring profile_2d_upright (-(0.02 : ℚ) / 2) ++
        profile_ring profile_2d_upright ((0.02 : ℚ) / 2) ∧
    (create_side_panel true).1.verts =
      profile_ring profile_2d_upright ((0.02 : ℚ) / 2) ++
        profile_ring profile_2d_upright (-(0.02 : ℚ) / 2) ∧
    ((create_side_panel false).1.verts : Multiset Vec3) =
      ((create_side_panel true).1.verts : Multiset Vec3) ∧
    (create_side_panel false).1.faces = (create_side_panel true).1.faces := by
  have hm : mirror_for_right profile_2d_upright = profile_2d_upright :=
    mirror_for_right_id profile_2d_upright
  have h5 : (create_side_panel false).1.verts =
      profile_ring profile_2d_upright (-(0.02 : ℚ) / 2) ++
        profile_ring profile_2d_upright ((0.02 : ℚ) / 2) := rfl
  have h6 : (create_side_panel true).1.verts =
      profile_ring profile_2d_upright ((0.02 : ℚ) / 2) ++
        profile_ring profile_2d_upright (-(0.02 : ℚ) / 2) := by
    show (side_panel_mesh (mirror_for_right profile_2d_upright) 0.02 true).verts = _
    rw [hm]
    rfl
  refine ⟨rfl, hm, rfl, rfl, h5, h6, ?_, ?_⟩
  · rw [h5, h6]
    exact Multiset.coe_eq_coe.mpr List.perm_append_comm
  · show (side_panel_mesh profile_2d_upright 0.02 false).faces =
      (side_panel_mesh (mirror_for_right profile_2d_upright) 0.02 true).faces
    rw [hm]
    rfl

lemma getD_side_quads (n i : Nat) (hi : i < n) :
    (side_quads n).getD i [] = [i, (i + 1) % n, n + (i + 1) % n, n + i] := by
  rw [side_quads, List.getD_eq_getElem?_getD, List.getElem?_map, List.getElem?_range hi]
  rfl

lemma extrude_faces_getD (pts : List (ℚ × ℚ)) (yf yb : ℚ) (i : Nat)
    (hi : i < pts.length) :
    (extrude_slab pts yf yb).faces.getD (2 + i) [] =
      [i, (i + 1) % pts.length, pts.length + (i + 1) % pts.length, pts.length + i] := by
  have h2 : 2 + i = (i + 1) + 1 := by omega
  simp only [extrude_slab]
  rw [h2, List.getD_cons_succ, List.getD_cons_succ]
  exact getD_side_quads pts.length i hi

lemma extrude_vert_front (pts : List (ℚ × ℚ)) (yf yb : ℚ) (k : Nat)
    (hk : k < pts.length) :
    vert (extrude_slab pts yf yb) k =
      ⟨(pts.getD k (0, 0)).1, yf, (pts.getD k (0, 0)).2⟩ := by
  simp only [vert, extrude_slab, profile_ring]
  rw [List.getD_eq_getElem?_getD, List.getElem?_append_left (by simpa using hk),
    List.getElem?_map, List.getElem?_eq_getElem hk]
  simp [List.getD_eq_getElem?_getD, List.getElem?_eq_getElem hk]

lemma extrude_vert_back (pts : List (ℚ × ℚ)) (yf yb : ℚ) (k : Nat)
    (hk : k < pts.length) :
    vert (extrude_slab pts yf yb) (pts.length + k) =
      ⟨(pts.getD k (0, 0)).1, yb, (pts.getD k (0, 0)).2⟩ := by
  simp only [vert, extrude_slab, profile_ring]
  rw [List.getD_eq_getElem?_getD, List.getElem?_append_right (by simp),
    List.getElem?_map]
  simp [List.getElem?_eq_getElem hk, List.getD_eq_getElem?_getD]

/-- C4 counterexample: in the upright left side panel (is_right =
False, thickness 0.02), the side quad built on the bottom profile edge
(edge 14, from (-0.40, 0) back to (0, 0)) has a right-hand-rule normal
whose dot product with the vector from the profile centroid to the
quad center is negative: that normal points toward the centroid, not
away from it. -/
theorem C4_counterexample :
    dot (side_quad_normal profile_2d_upright 0.02 false 14)
      (vsub (side_quad_center profile_2d_upright 0.02 false 14)
        (profile_centroid profile_2d_upright)) < 0 := by
  have key : side_quad_normal profile_2d_upright 0.02 false 14 =
      cross (vsub ⟨0, -(0.02 : ℚ) / 2, 0⟩ ⟨-0.40, -(0.02 : ℚ) / 2, 0⟩)
        (vsub ⟨0, (0.02 : ℚ) / 2, 0⟩ ⟨-0.40, -(0.02 : ℚ) / 2, 0⟩) := rfl
  have hcen : side_quad_center profile_2d_upright 0.02 false 14 =
      smul (1 / 4)
        (vadd (vadd ⟨-0.40, -(0.02 : ℚ) / 2, 0⟩ ⟨0, -(0.02 : ℚ) / 2, 0⟩)
          (vadd ⟨0, (0.02 : ℚ) / 2, 0⟩ ⟨-0.40, (0.02 : ℚ) / 2, 0⟩)) := rfl
  have hpc : profile_centroid profile_2d_upright = ⟨-203 / 1500, 0, 67 / 60⟩ := by
    norm_num [profile_centroid, profile_2d_upright]
  rw [key, hcen, hpc]
  norm_num [dot, cross, vsub, vadd, smul]

/-- C4 amended: every side quad of a profile extrusion has the
right-hand-rule normal determined by its winding equal to thickness
times the in-plane perpendicular of its profile edge — for
is_right = False the normal is ( t*(z_i - z_j), 0, t*(x_j - x_i) )
with j = (i+1) mod n, and for is_right = True its negation; the normal
lies in the profile plane but does not always point away from the
profile centroid (for the upright left panel bottom edge it points
toward it). -/
theorem C4_side_quad_normal_formula (pts : List (ℚ × ℚ)) (t : ℚ) (flag : Bool)
    (i : Nat) (hi : i < pts.length) (ht : 0 < t) :
    side_quad_normal pts t flag i =
      ⟨(if flag then -1 else 1) * t *
          ((pts.getD i (0, 0)).2 - (pts.getD ((i + 1) % pts.length) (0, 0)).2),
        0,
        (if flag then -1 else 1) * t *
          ((pts.getD ((i + 1) % pts.length) (0, 0)).1 - (pts.getD i (0, 0)).1)⟩ := by
  have hn : 0 < pts.length := lt_of_le_of_lt (Nat.zero_le i) hi
  have hj : (i + 1) % pts.length < pts.length := Nat.mod_lt _ hn
  have hmesh : side_panel_mesh pts t flag =
      extrude_slab pts (if flag then t / 2 else -t / 2)
        (if flag then -t / 2 else t / 2) := rfl
  rw [side_quad_normal, side_quad, hmesh, extrude_faces_getD pts _ _ i hi]
  simp only [face_normal]
  rw [extrude_vert_front pts _ _ i hi, extrude_vert_front pts _ _ _ hj,
    extrude_vert_back pts _ _ _ hj]
  cases flag <;>
    · simp only [if_true, if_false, Bool.false_eq_true, cross, vsub, Vec3.mk.injEq]
      refine ⟨by ring, by ring, by ring⟩

/-- C4 amended witness: the formula at the upright bottom edge, where
it evaluates to the vertical vector (0, 0, 1/125). -/
theorem C4_side_quad_normal_formula_witness :
    side_quad_normal profile_2d_upright 0.02 false 14 = ⟨0, 0, 1 / 125⟩ := by
  have h := C4_side_quad_normal_formula profile_2d_upright 0.02 false 14
    (by decide) (by norm_num)
  have hmod : (14 + 1) % profile_2d_upright.length = 0 := rfl
  have h14 : profile_2d_upright.getD 14 (0, 0) = (-0.40, 0) := rfl
  have h0 : profile_2d_upright.getD 0 (0, 0) = (0, 0) := rfl
  rw [h, hmod, h14, h0]
  norm_num [Vec3.mk.injEq]

end RetroVisionCabs
